import Mathlib

/-
  Verification of the Worker and Port subsystem of jsrun (src/worker.c).

  The C code is shallowly embedded: the message queue of a port becomes a
  Lean list (head of the list = message_head, last element = message_tail);
  the mutex, condition variable and memory management are erased, with the
  condition-variable signalling recorded as a Bool where a claim needs it.
  Reads and writes that the C code performs under the port lock become pure
  state transformations, and the concurrent interleaving of the port
  operations of several threads is modelled by a transition system over a
  single port together with the history of payloads posted into it and
  dequeued from it.
-/

namespace JsrunWorker

/-- A message (struct message, worker.c lines 49 to 65): the JSON-encoded
payload (`contents`, an owned string) and the opaque handle of the host
Worker object in the receiving thread that the message targets
(`receiver`); `none` models the NULL receiver that targets the global
onMessage.  The intrusive `next` pointer is represented by membership in
the queue list of a port. -/
structure Message where
  contents : String
  receiver : Option Nat
deriving DecidableEq

/-- The state of a port (struct port, worker.c lines 74 to 128).  The
`message_head` and `message_tail` pointers are modelled together as the
list `queue` (the head of the list is message_head; message_tail is NULL
exactly when the list is empty).  The mutex and the condition variable are
erased; the three atomic flags and the refcount are kept. -/
structure PortState where
  refcount : Int
  waiting : Bool
  disconnected : Bool
  terminated : Bool
  queue : List Message
deriving DecidableEq

/-- create_port (worker.c lines 183 to 190): calloc zeroes every field, so
the refcount is 0, all flags are false and the queue is empty. -/
def create_port : PortState :=
  { refcount := 0, waiting := false, disconnected := false,
    terminated := false, queue := [] }

/-- send_message (worker.c lines 245 to 273).  Under the port lock: if the
port is terminated or disconnected, the message is freed and false is
returned with the port untouched; otherwise `waiting` is cleared and the
message appended behind message_tail, and the condition variable is
signalled exactly when message_tail was NULL, i.e. when the queue was
empty.  Result components: the new port state, the Bool the C function
returns, and whether the condition variable was signalled. -/
def send_message (p : PortState) (m : Message) : PortState × Bool × Bool :=
  if p.terminated || p.disconnected then
    (p, false, false)
  else
    match p.queue with
    | [] => ({ p with waiting := false, queue := [m] }, true, true)
    | x :: xs => ({ p with waiting := false, queue := (x :: xs) ++ [m] }, true, false)

/-- release_sending_port (worker.c lines 232 to 240): decrements the
refcount, signals the condition variable, and returns `true`
unconditionally, although its own doc comment says that it returns whether
the remote end has already been destroyed.  Result: the new state and the
returned Bool; the condition-variable signal carries no state here. -/
def release_sending_port (p : PortState) : PortState × Bool :=
  ({ p with refcount := p.refcount - 1 }, true)

/-- The dequeue path of get_message (worker.c lines 399 to 404 and 449 to
462): if the port is terminated, the function returns false without
touching the queue; otherwise, if a message is queued, the head is
detached (clearing its next pointer and fixing message_tail when the queue
becomes empty) and returned.  The sleeping and the GC attempt between
those two program points are modelled by the separate transition system
below. -/
def dequeue_message (p : PortState) : PortState × Option Message :=
  if p.terminated then (p, none)
  else
    match p.queue with
    | [] => (p, none)
    | m :: rest => ({ p with queue := rest }, some m)

/-- The two atomic flags of the receive port of a child worker that
try_to_collect_workers reads without taking the child lock (worker.c line
331). -/
structure ChildPort where
  waiting : Bool
  disconnected : Bool
deriving DecidableEq

/-- One entry of the heap-stash "workers" array as try_to_collect_workers
sees it (worker.c lines 309 to 390): `nonObject` is an undefined or
deleted slot (duk_is_object and duk_is_pointer both report false);
`objNullStruct` is a host object whose hidden worker_struct pointer is
NULL (skipped at line 319); `obj c` is a strongly referenced host Worker
object whose worker record has receive-port flags `c`; `ptr c` is the same
entry demoted to a raw pointer, which is not a GC root. -/
inductive Slot where
  | nonObject
  | objNullStruct
  | obj (c : ChildPort)
  | ptr (c : ChildPort)
deriving DecidableEq

/-- The first loop of try_to_collect_workers (worker.c lines 309 to 351):
every strongly referenced worker whose receive port is waiting or
disconnected is demoted to a raw pointer; a live worker that is neither
clears all_waiting and keeps its strong reference; every other kind of
slot is skipped.  Returns the rewritten array and the all_waiting flag. -/
def inspect_loop : List Slot → List Slot × Bool
  | [] => ([], true)
  | Slot.obj c :: rest =>
      if c.waiting || c.disconnected then
        (Slot.ptr c :: (inspect_loop rest).1, (inspect_loop rest).2)
      else
        (Slot.obj c :: (inspect_loop rest).1, false)
  | s :: rest => (s :: (inspect_loop rest).1, (inspect_loop rest).2)

/-- The two duk_gc calls (worker.c lines 354 to 355).  The engine collector
is external to this repository, so its effect is modelled from the engine
contract stated in the specification: collection can finalise exactly the
demoted (raw pointer) slots; the oracle `surv i` tells whether the object
in slot `i` was still strongly referenced elsewhere in user code and hence
survived.  A finalised worker deletes its own slot (duk_del_prop in
finalise_worker, line 832), so a later read of that index yields
undefined, i.e. `nonObject`.  Strongly referenced slots are GC roots and
survive unchanged. -/
def run_gc (surv : Nat → Bool) : List Slot → Nat → List Slot
  | [], _ => []
  | Slot.ptr c :: rest, i =>
      (if surv i then Slot.ptr c else Slot.nonObject) :: run_gc surv rest (i + 1)
  | s :: rest, i => s :: run_gc surv rest (i + 1)

/-- One iteration of the second loop of try_to_collect_workers (worker.c
lines 358 to 382), reading slot `i` of the array: a raw pointer is
promoted back to an object and written at position insert_ptr, which is
then incremented; an object only increments insert_ptr and is left at its
old index; any other slot is skipped.  The state is (array, insert_ptr);
because insert_ptr never exceeds `i`, the in-place writes never touch an
index that is still to be read. -/
def promote_step (st : List Slot × Nat) (i : Nat) : List Slot × Nat :=
  match st.1.getD i Slot.nonObject with
  | Slot.ptr c => (st.1.set st.2 (Slot.obj c), st.2 + 1)
  | Slot.obj _ => (st.1, st.2 + 1)
  | Slot.objNullStruct => (st.1, st.2 + 1)
  | Slot.nonObject => (st.1, st.2)

/-- The second loop of try_to_collect_workers over the indices 0 to
len - 1, where len is the array length read at entry (worker.c line
301). -/
def promote_all (arr : List Slot) (len : Nat) : List Slot × Nat :=
  (List.range len).foldl promote_step (arr, 0)

/-- Writing the `length` property of the workers array (worker.c lines 384
to 385): the array is truncated or extended so that exactly `n` indices
remain; an extension slot reads as undefined. -/
def resize_array (arr : List Slot) (n : Nat) : List Slot :=
  (List.range n).map fun i => arr.getD i Slot.nonObject

/-- try_to_collect_workers (worker.c lines 279 to 390).  Arguments: the
receive-port queue of the calling thread (checked first, line 287: a
non-empty queue aborts the rendezvous), the "workers" array from the heap
stash of the thread (`none` when the property is not an object, lines 294
to 298), and the GC survival oracle.  Returns the workers array afterwards
(`none` if it did not exist) and the Bool result, which is the all_waiting
flag computed by the first loop. -/
def try_to_collect_workers (queue : List Message) (workers : Option (List Slot))
    (surv : Nat → Bool) : Option (List Slot) × Bool :=
  match queue with
  | _ :: _ => (workers, false)
  | [] =>
    match workers with
    | none => (none, false)
    | some slots =>
      let demoted := (inspect_loop slots).1
      let collected := run_gc surv demoted 0
      let promoted := promote_all collected collected.length
      (some (resize_array promoted.1 (promoted.2 + 1)), (inspect_loop slots).2)

/-- The quiescence test the first loop applies to a single slot: a slot
only blocks all_waiting when it is a strongly referenced live worker whose
receive port is neither waiting nor disconnected. -/
def slot_quiescent : Slot → Bool
  | Slot.obj c => c.waiting || c.disconnected
  | _ => true

/-- Result of a call of the C constructor function spawn_worker (worker.c
lines 748 to 811) as the calling script observes it: a plain return of
undefined (`return 0`), a raised type error (`return
DUK_RET_TYPE_ERROR`), or a successfully spawned worker. -/
inductive SpawnResult where
  | ret_undefined
  | type_error
  | spawned
deriving DecidableEq

/-- Side effects of spawn_worker: whether an OS thread was created
(pthread_create, worker.c line 776), whether a port was created
(create_port, line 770), and whether the workers array in the heap stash
was changed (lines 783 to 805). -/
structure SpawnEffects where
  thread_created : Bool
  port_created : Bool
  workers_changed : Bool
deriving DecidableEq

/-- The absence of side effects. -/
def no_spawn_effects : SpawnEffects :=
  { thread_created := false, port_created := false, workers_changed := false }

/-- spawn_worker (worker.c lines 748 to 811), with the checks in source
order: a non-constructor call returns undefined (line 752); an argument
count other than one raises a type error (line 757); a non-string argument
(duk_get_string yields NULL) raises a type error (line 762); then a
receive port is created and a thread started; if pthread_create fails, the
worker is cleaned up again (the port is freed) and undefined is returned
(line 776); on success the worker is registered in the workers array and
the refcount of the parent port is incremented. -/
def spawn_worker (isCtor : Bool) (nargs : Nat) (argIsString : Bool) (threadOk : Bool) :
    SpawnResult × SpawnEffects :=
  if isCtor = false then (SpawnResult.ret_undefined, no_spawn_effects)
  else if nargs ≠ 1 then (SpawnResult.type_error, no_spawn_effects)
  else if argIsString = false then (SpawnResult.type_error, no_spawn_effects)
  else if threadOk = false then
    (SpawnResult.ret_undefined,
      { thread_created := false, port_created := true, workers_changed := false })
  else
    (SpawnResult.spawned,
      { thread_created := true, port_created := true, workers_changed := true })

/-- post_message_global (worker.c lines 620 to 639): the global postMessage
inside a worker.  The JSON encoder of the engine is modelled by its result
(`none` means duk_json_encode returned NULL).  On failure the function
raises a type error before any message is built; on success it builds a
message whose contents are the encoding and whose receiver is the host
handle of this worker in the parent (`w->object`, here an opaque Nat) and
sends it into the parent port.  A `some` result is the send_message
outcome on that port; the C function itself returns 0, so the script sees
no return value. -/
def post_message_global (json : Option String) (wobject : Nat) (parent : PortState) :
    Option (PortState × Bool × Bool) :=
  match json with
  | none => none
  | some j => some (send_message parent { contents := j, receiver := some wobject })

/-- post_message_method (worker.c lines 701 to 720): the postMessage method
of a Worker handle.  Same shape as post_message_global, but the receiver
of the message is NULL (the global onMessage of the child thread) and the
target is the receive port of the child worker. -/
def post_message_method (json : Option String) (receive : PortState) :
    Option (PortState × Bool × Bool) :=
  match json with
  | none => none
  | some j => some (send_message receive { contents := j, receiver := none })

/-- The state that finalise_worker acts on (worker.c lines 813 to 847): the
hidden worker_struct pointer property of the host object (`none` once
cleared), the hidden index property (the code reads it at line 845 but
never deletes it: that line is a get, not a delete), the workers array of
the parent modelled by the occupancy of its slots, and the receive port of
the worker. -/
structure WorkerObjectState where
  worker_struct : Option Nat
  index : Nat
  workers : List Bool
  port : PortState
deriving DecidableEq

/-- finalise_worker (worker.c lines 813 to 847): if the hidden
worker_struct pointer is absent, the finaliser returns immediately
(spurious double finalise, line 819); otherwise it deletes slot `index` of
the workers array (duk_del_prop, line 832), releases the sending reference
to the receive port (line 841), and deletes the hidden worker_struct
property (line 844).  The second component of the result records whether
release_sending_port was called. -/
def finalise_worker (s : WorkerObjectState) : WorkerObjectState × Bool :=
  match s.worker_struct with
  | none => (s, false)
  | some _ =>
    ({ s with worker_struct := none,
              workers := s.workers.set s.index false,
              port := (release_sending_port s.port).1 }, true)

/-- Observable history of a single port: the port state, whether free_port
has already run, the payloads posted into it by the sending side in order,
and the payloads dequeued by the receiving run loop (and handed to
onMessage) in order. -/
structure PortObs where
  port : PortState
  freed : Bool
  posted : List String
  delivered : List String
deriving DecidableEq

/-- The initial observation: a fresh port from create_port, not freed, with
empty histories. -/
def init_obs : PortObs :=
  { port := create_port, freed := false, posted := [], delivered := [] }

/-- One observable port operation, each mapped to its code site in
worker.c.  `send` is send_message (lines 245 to 273) and records the
payload as posted; `dequeue` is the dequeue path of get_message (lines 449
to 462, guarded by the terminated check of line 400) and records the
payload as delivered; `set_waiting` is the store at line 427, which the
code reaches only with the queue empty (checked at line 423); `acquire` is
the refcount increment of spawn_worker (line 809); `release` is
release_sending_port (lines 232 to 240); `terminate` is terminate_method
(line 739); `disconnect` is the disconnected store of cleanup_worker (line
477); `free` is free_port (lines 207 to 226), which asserts that the
refcount is zero and frees every queued message.  The model permits some
interleavings that the threading discipline of the program forbids (for
example it drops the extra guard conjunct at line 423), so every invariant
proved over this system also holds of the program. -/
inductive PortStep : PortObs → PortObs → Prop where
  | send (s : PortObs) (m : Message) (h : s.freed = false) :
      PortStep s { s with port := (send_message s.port m).1,
                          posted := s.posted ++ [m.contents] }
  | dequeue (s : PortObs) (m : Message) (h : s.freed = false)
      (hm : (dequeue_message s.port).2 = some m) :
      PortStep s { s with port := (dequeue_message s.port).1,
                          delivered := s.delivered ++ [m.contents] }
  | set_waiting (s : PortObs) (h : s.freed = false) (hq : s.port.queue = []) :
      PortStep s { s with port := { s.port with waiting := true } }
  | acquire (s : PortObs) (h : s.freed = false) :
      PortStep s { s with port := { s.port with refcount := s.port.refcount + 1 } }
  | release (s : PortObs) (h : s.freed = false) :
      PortStep s { s with port := (release_sending_port s.port).1 }
  | terminate (s : PortObs) (h : s.freed = false) :
      PortStep s { s with port := { s.port with terminated := true } }
  | disconnect (s : PortObs) (h : s.freed = false) :
      PortStep s { s with port := { s.port with disconnected := true } }
  | free (s : PortObs) (h : s.freed = false) (hrc : s.port.refcount = 0) :
      PortStep s { s with port := { s.port with queue := [] }, freed := true }

/-- The port observations reachable from a fresh port. -/
inductive PortReachable : PortObs → Prop where
  | init : PortReachable init_obs
  | step {s t : PortObs} : PortReachable s → PortStep s t → PortReachable t

/-- Inductive invariant of the port transition system: the delivered
payloads followed by the still-queued payloads form a prefix of the posted
payloads; while the port is alive and neither terminated nor disconnected,
that prefix is the entire posted history; a waiting port has an empty
queue; a freed port has an empty queue and refcount zero. -/
def PortInv (s : PortObs) : Prop :=
  (∃ t, s.posted = (s.delivered ++ s.port.queue.map Message.contents) ++ t)
  ∧ (s.freed = false → (s.port.terminated || s.port.disconnected) = false →
      s.posted = s.delivered ++ s.port.queue.map Message.contents)
  ∧ (s.port.waiting = true → s.port.queue = [])
  ∧ (s.freed = true → s.port.queue = [] ∧ s.port.refcount = 0)

/-- Intermediate state for the C5 witness: one payload posted and queued. -/
def obs_sent : PortObs :=
  { port := { refcount := 0, waiting := false, disconnected := false, terminated := false,
              queue := [{ contents := "a", receiver := none }] },
    freed := false, posted := ["a"], delivered := [] }

/-- Final state for the C5 witness: the queued payload was dequeued. -/
def obs_delivered : PortObs :=
  { port := { refcount := 0, waiting := false, disconnected := false, terminated := false,
              queue := [] },
    freed := false, posted := ["a"], delivered := ["a"] }

/-- State for the C10 witness: the receive loop declared itself waiting. -/
def obs_waiting : PortObs :=
  { port := { refcount := 0, waiting := true, disconnected := false, terminated := false,
              queue := [] },
    freed := false, posted := [], delivered := [] }

/-- First state of the C7 counterexample trace: one sender acquired. -/
def obs_acquired : PortObs :=
  { port := { refcount := 1, waiting := false, disconnected := false, terminated := false,
              queue := [] },
    freed := false, posted := [], delivered := [] }

/-- Second state of the C7 counterexample trace: a message was sent. -/
def obs_acquired_sent : PortObs :=
  { port := { refcount := 1, waiting := false, disconnected := false, terminated := false,
              queue := [{ contents := "a", receiver := none }] },
    freed := false, posted := ["a"], delivered := [] }

/-- Final state of the C7 counterexample trace: the only sender released
its reference while the message was still queued, as happens when a Worker
handle is finalised after termination of the child, or when the last child
of a thread exits with a message still undelivered in the parent port. -/
def obs_orphaned : PortObs :=
  { port := { refcount := 0, waiting := false, disconnected := false, terminated := false,
              queue := [{ contents := "a", receiver := none }] },
    freed := false, posted := ["a"], delivered := [] }

/-- State for the witness of the amended C7: the port was freed. -/
def obs_freed : PortObs :=
  { port := { refcount := 0, waiting := false, disconnected := false, terminated := false,
              queue := [] },
    freed := true, posted := [], delivered := [] }

/- ------------------------------------------------------------------ -/
/- Theorems.                                                          -/
/- ------------------------------------------------------------------ -/

/-- Helper: taking the length of the left part of an append returns it. -/
theorem take_len_append (l t : List String) : (l ++ t).take l.length = l := by
  induction l with
  | nil => rfl
  | cons a l ih => simp [ih]

/-- Helper: the all_waiting flag computed by the first rendezvous loop is
the conjunction of the per-slot quiescence tests. -/
theorem inspect_loop_all_waiting (slots : List Slot) :
    (inspect_loop slots).2 = slots.all slot_quiescent := by
  induction slots with
  | nil => rfl
  | cons s rest ih =>
    cases s with
    | nonObject => simpa [inspect_loop, slot_quiescent] using ih
    | objNullStruct => simpa [inspect_loop, slot_quiescent] using ih
    | obj c =>
        cases hwd : c.waiting || c.disconnected <;>
          simp [inspect_loop, hwd, slot_quiescent, ih]
    | ptr c => simpa [inspect_loop, slot_quiescent] using ih

/-- Helper: the invariant holds of the initial observation. -/
theorem port_inv_init : PortInv init_obs :=
  ⟨⟨[], rfl⟩, fun _ _ => rfl, fun _ => rfl, fun _ => ⟨rfl, rfl⟩⟩

/-- Helper: a send into a terminated or disconnected port drops the
message and leaves the port unchanged. -/
theorem send_message_of_flag {p : PortState} (m : Message)
    (hp : (p.terminated || p.disconnected) = true) :
    send_message p m = (p, false, false) := by
  cases ht : p.terminated with
  | true => simp [send_message, ht]
  | false =>
      cases hd : p.disconnected with
      | true => simp [send_message, ht, hd]
      | false =>
          rw [ht, hd] at hp
          cases hp

/-- Helper: a send into a live port clears the waiting flag and appends
the message at the tail. -/
theorem send_message_of_live {p : PortState} (m : Message)
    (hp : (p.terminated || p.disconnected) = false) :
    (send_message p m).1 = { p with waiting := false, queue := p.queue ++ [m] } := by
  have ht : p.terminated = false := by
    cases h : p.terminated
    · rfl
    · rw [h] at hp; cases hp
  have hd : p.disconnected = false := by
    cases h : p.disconnected
    · rfl
    · rw [h] at hp; simp at hp
  cases hq : p.queue <;> simp [send_message, ht, hd, hq]

/-- Helper: every port operation preserves the invariant. -/
theorem port_inv_step {s t : PortObs} (hs : PortInv s) (hst : PortStep s t) : PortInv t := by
  obtain ⟨⟨tl, htl⟩, hlive, hwait, hfreed⟩ := hs
  cases hst with
  | send m h =>
      by_cases hflag : (s.port.terminated || s.port.disconnected) = true
      · have hp := send_message_of_flag m hflag
        refine ⟨⟨tl ++ [m.contents], ?_⟩, ?_, ?_, ?_⟩
        · simp [hp, htl]
        · intro _ h2
          simp [hp] at h2
          simp [h2] at hflag
        · intro hw
          simp [hp] at hw ⊢
          exact hwait hw
        · intro h1
          simp [h] at h1
      · have hflag' : (s.port.terminated || s.port.disconnected) = false := by
          simpa using hflag
        have hp := send_message_of_live m hflag'
        have heq := hlive h hflag'
        refine ⟨⟨[], ?_⟩, ?_, ?_, ?_⟩
        · simp [hp, heq]
        · intro _ _
          simp [hp, heq]
        · intro hw
          simp [hp] at hw
        · intro h1
          simp [h] at h1
  | dequeue m h hm =>
      cases ht : s.port.terminated with
      | true => simp [dequeue_message, ht] at hm
      | false =>
          cases hq : s.port.queue with
          | nil => simp [dequeue_message, ht, hq] at hm
          | cons m0 rest =>
              have hp : (dequeue_message s.port).1 = { s.port with queue := rest } := by
                simp [dequeue_message, ht, hq]
              have hm0 : m0 = m := by
                simpa [dequeue_message, ht, hq] using hm
              subst hm0
              refine ⟨⟨tl, ?_⟩, ?_, ?_, ?_⟩
              · simp [hp, htl, hq]
              · intro _ h2
                simp [hp, ht] at h2
                have hsp := hlive h (by rw [ht, h2]; rfl)
                simp [hp, hsp, hq]
              · intro hw
                have h0 := hwait (by simpa [hp] using hw)
                rw [hq] at h0
                cases h0
              · intro h1
                simp [h] at h1
  | set_waiting h hq =>
      refine ⟨⟨tl, ?_⟩, ?_, ?_, ?_⟩
      · simpa using htl
      · intro _ h2
        simpa using hlive h (by simpa using h2)
      · intro _
        simpa using hq
      · intro h1
        simp [h] at h1
  | acquire h =>
      refine ⟨⟨tl, ?_⟩, ?_, ?_, ?_⟩
      · simpa using htl
      · intro _ h2
        simpa using hlive h (by simpa using h2)
      · intro hw
        simpa using hwait (by simpa using hw)
      · intro h1
        simp [h] at h1
  | release h =>
      refine ⟨⟨tl, ?_⟩, ?_, ?_, ?_⟩
      · simpa [release_sending_port] using htl
      · intro _ h2
        simpa [release_sending_port] using
          hlive h (by simpa [release_sending_port] using h2)
      · intro hw
        simpa [release_sending_port] using
          hwait (by simpa [release_sending_port] using hw)
      · intro h1
        simp [h] at h1
  | terminate h =>
      refine ⟨⟨tl, ?_⟩, ?_, ?_, ?_⟩
      · simpa using htl
      · intro _ h2
        simp at h2
      · intro hw
        simpa using hwait (by simpa using hw)
      · intro h1
        simp [h] at h1
  | disconnect h =>
      refine ⟨⟨tl, ?_⟩, ?_, ?_, ?_⟩
      · simpa using htl
      · intro _ h2
        simp at h2
      · intro hw
        simpa using hwait (by simpa using hw)
      · intro h1
        simp [h] at h1
  | free h hrc =>
      refine ⟨⟨s.port.queue.map Message.contents ++ tl, ?_⟩, ?_, ?_, ?_⟩
      · rw [htl]
        simp
      · intro h1 _
        simp at h1
      · intro _
        simp
      · intro _
        exact ⟨by simp, by simpa using hrc⟩

/-- Helper: the invariant holds of every reachable observation. -/
theorem port_inv_of_reachable {s : PortObs} (h : PortReachable s) : PortInv s := by
  induction h with
  | init => exact port_inv_init
  | step _ hst ih => exact port_inv_step ih hst

/-- Claim C3 (confirmed): send_message on a terminated or disconnected port
frees the message, leaves the port (in particular its queue) unchanged and
returns false without signalling; otherwise it clears the waiting flag,
appends the message at the tail of the queue, signals the condition
variable exactly when the queue was empty before the append, and returns
true. -/
theorem send_message_spec (p : PortState) (m : Message) :
    send_message p m =
      if p.terminated || p.disconnected then (p, false, false)
      else ({ p with waiting := false, queue := p.queue ++ [m] }, true, p.queue.isEmpty) := by
  cases ht : p.terminated <;> cases hd : p.disconnected <;> cases hq : p.queue <;>
    simp [send_message, ht, hd, hq]

/-- Claim C4 (code bug): on a port whose receiving end is still connected
(disconnected = false), release_sending_port nevertheless returns true,
while the claim and the doc comment of the function itself say that it
returns whether the peer is already disconnected, i.e. false here.  The
refcount is decremented by one, as claimed. -/
theorem release_sending_port_always_true :
    (release_sending_port { refcount := 1, waiting := false, disconnected := false,
                            terminated := false, queue := [] }).2 = true
  ∧ PortState.disconnected { refcount := 1, waiting := false, disconnected := false,
                             terminated := false, queue := [] } = false
  ∧ (release_sending_port { refcount := 1, waiting := false, disconnected := false,
                            terminated := false, queue := [] }).1.refcount = 0 := by
  refine ⟨rfl, rfl, ?_⟩
  decide

/-- Claim C1 (amended): with the receive-port queue empty,
try_to_collect_workers returns true iff the workers array exists in the
heap stash and every entry that holds a live worker record has the waiting
or disconnected flag of its receive port set (an existing empty array
yields true); when the workers array was never created, the function
returns false. -/
theorem gc_rendezvous_all_quiescent (slots : List Slot) (surv : Nat → Bool) :
    (try_to_collect_workers [] (some slots) surv).2 = slots.all slot_quiescent
  ∧ (try_to_collect_workers [] none surv).2 = false := by
  constructor
  · exact inspect_loop_all_waiting slots
  · rfl

/-- Claim C1 counterexample: a thread that never constructed a Worker has
no "workers" property in its heap stash, so the array lookup yields
undefined and try_to_collect_workers returns false, where the claim says
that a thread with no children gets true (every child being vacuously
quiescent). -/
theorem gc_rendezvous_no_array_counterexample :
    (try_to_collect_workers [] none (fun _ => false)).2 = false := rfl

/-- Claim C2 (code bug): the rendezvous resizes the workers array to
insert_ptr + 1 instead of insert_ptr (worker.c line 384).  First conjunct:
with a single waiting child that the GC collects, the array afterwards has
length 1 holding one undefined slot, where the claim (and the
chain-of-three scenario of the specification) require length 0.  Second
conjunct: with a collected first child and a surviving, strongly
referenced second child, the survivor is also left at index 1 behind an
undefined slot instead of being compacted to index 0. -/
theorem gc_rendezvous_resize_off_by_one :
    (try_to_collect_workers [] (some [Slot.obj { waiting := true, disconnected := false }])
        (fun _ => false)).1 = some [Slot.nonObject]
  ∧ (try_to_collect_workers []
        (some [Slot.obj { waiting := true, disconnected := false },
               Slot.obj { waiting := false, disconnected := false }])
        (fun _ => false)).1
      = some [Slot.nonObject, Slot.obj { waiting := false, disconnected := false }] := by
  constructor <;> rfl

/-- Claim C5 (confirmed): the sequence of payloads dequeued by the run loop
and handed to onMessage is a prefix of the sequence of payloads posted by
the single sender (stated as: taking that many elements of the posted
history returns exactly the delivered history), hence in particular a
prefix-preserving subsequence with no reordering. -/
theorem fifo_delivery_refines_posting (s : PortObs) (h : PortReachable s) :
    s.posted.take s.delivered.length = s.delivered := by
  obtain ⟨⟨tl, htl⟩, -, -, -⟩ := port_inv_of_reachable h
  rw [htl, List.append_assoc]
  exact take_len_append _ _

/-- Witness for C5: a concrete reachable trace that posts the payload "a"
and dequeues it. -/
theorem fifo_delivery_refines_posting_witness :
    PortReachable obs_delivered
  ∧ obs_delivered.posted.take obs_delivered.delivered.length = obs_delivered.delivered := by
  have h1 : PortReachable obs_sent :=
    PortReachable.step PortReachable.init
      (PortStep.send init_obs { contents := "a", receiver := none } rfl)
  have h2 : PortReachable obs_delivered :=
    PortReachable.step h1
      (PortStep.dequeue obs_sent { contents := "a", receiver := none } rfl rfl)
  exact ⟨h2, fifo_delivery_refines_posting obs_delivered h2⟩

/-- Claim C6 (amended): a call of the Worker constructor that is not a
constructor call returns undefined without raising an error; a constructor
call with an argument count other than one, or with a non-string argument,
raises a type error; in every one of these cases no thread is spawned, no
port is created, and the workers array is left unchanged. -/
theorem spawn_worker_argument_checks (nargs : Nat) (argIsString threadOk : Bool) :
    spawn_worker false nargs argIsString threadOk
        = (SpawnResult.ret_undefined, no_spawn_effects)
  ∧ spawn_worker true 0 argIsString threadOk = (SpawnResult.type_error, no_spawn_effects)
  ∧ (∀ k : Nat, spawn_worker true (k + 2) argIsString threadOk
        = (SpawnResult.type_error, no_spawn_effects))
  ∧ spawn_worker true 1 false threadOk = (SpawnResult.type_error, no_spawn_effects) := by
  refine ⟨rfl, rfl, fun k => ?_, rfl⟩
  have hk : k + 2 ≠ 1 := by omega
  simp [spawn_worker, hk]

/-- Claim C6 counterexample: invoked without new (not a constructor call),
even with one string argument, spawn_worker returns undefined instead of
raising the type error the claim requires. -/
theorem spawn_worker_non_constructor_counterexample :
    (spawn_worker false 1 true true).1 = SpawnResult.ret_undefined
  ∧ SpawnResult.ret_undefined ≠ SpawnResult.type_error := by
  refine ⟨rfl, ?_⟩
  decide

/-- Claim C7 counterexample: the state obs_orphaned is reachable (acquire a
sender, send one message, release the sender) and has refcount 0 with a
non-empty queue, refuting the claimed invariant that refcount 0 implies an
empty queue.  In the program this happens when the last sending reference
to a port is released while a message is still undelivered, e.g. when a
terminated child is finalised, or when the last child of a thread exits
right after posting to the parent port. -/
theorem refcount_zero_nonempty_queue_counterexample :
    PortReachable obs_orphaned
  ∧ obs_orphaned.port.refcount = 0
  ∧ obs_orphaned.port.queue ≠ [] := by
  have h1 : PortReachable obs_acquired :=
    PortReachable.step PortReachable.init (PortStep.acquire init_obs rfl)
  have h2 : PortReachable obs_acquired_sent :=
    PortReachable.step h1
      (PortStep.send obs_acquired { contents := "a", receiver := none } rfl)
  have h3 : PortReachable obs_orphaned :=
    PortReachable.step h2 (PortStep.release obs_acquired_sent rfl)
  refine ⟨h3, rfl, ?_⟩
  decide

/-- Claim C7 (amended): refcount 0 alone does not empty the queue; queued
messages disappear only by being dequeued or by port teardown.  What holds
in every reachable state: once the port has been freed (free_port, which
requires refcount 0 and frees all outstanding messages), the queue is
empty — head == tail == null — and the refcount is 0. -/
theorem freed_port_queue_empty (s : PortObs) (h : PortReachable s) (hf : s.freed = true) :
    s.port.queue = [] ∧ s.port.refcount = 0 :=
  (port_inv_of_reachable h).2.2.2 hf

/-- Witness for the amended C7: a concrete reachable freed port. -/
theorem freed_port_queue_empty_witness :
    PortReachable obs_freed ∧ obs_freed.port.queue = [] ∧ obs_freed.port.refcount = 0 := by
  have h1 : PortReachable obs_freed :=
    PortReachable.step PortReachable.init (PortStep.free init_obs rfl rfl)
  exact ⟨h1, freed_port_queue_empty obs_freed h1 rfl⟩

/-- Claim C8 (confirmed): the Worker finaliser is idempotent with respect
to port release: a second invocation on the same object finds the hidden
record pointer cleared by the first one, performs no action and does not
call release, so across both invocations the receive-port refcount drops
by at most one. -/
theorem finalise_worker_idempotent (s : WorkerObjectState) :
    finalise_worker (finalise_worker s).1 = ((finalise_worker s).1, false)
  ∧ s.port.refcount - (finalise_worker (finalise_worker s).1).1.port.refcount ≤ 1 := by
  cases h : s.worker_struct with
  | none =>
      constructor
      · simp [finalise_worker, h]
      · have : (finalise_worker (finalise_worker s).1).1.port.refcount = s.port.refcount := by
          simp [finalise_worker, h]
        rw [this]
        omega
  | some w =>
      constructor
      · simp [finalise_worker, h]
      · have : (finalise_worker (finalise_worker s).1).1.port.refcount
            = s.port.refcount - 1 := by
          simp [finalise_worker, h, release_sending_port]
        rw [this]
        omega

/-- Claim C9 (confirmed): when the JSON encoder fails, both postMessage
forms raise a type error and enqueue nothing into any port; when it
succeeds, a message carrying the encoding is sent, with the parent-side
host handle as receiver for the global form and the NULL receiver for the
handle method, and — whenever the target port is neither terminated nor
disconnected — the encoding is appended at the tail of the target queue.
Neither form produces a script-visible return value (both C functions
return 0). -/
theorem post_message_spec (wobject : Nat) (p q : PortState) :
    post_message_global none wobject p = none
  ∧ post_message_method none q = none
  ∧ ∀ j : String,
      post_message_global (some j) wobject p
          = some (send_message p { contents := j, receiver := some wobject })
      ∧ post_message_method (some j) q
          = some (send_message q { contents := j, receiver := none })
      ∧ ((p.terminated || p.disconnected) = false →
          ((send_message p { contents := j, receiver := some wobject }).1).queue
            = p.queue ++ [{ contents := j, receiver := some wobject }]) := by
  refine ⟨rfl, rfl, fun j => ⟨rfl, rfl, fun hflags => ?_⟩⟩
  cases hq : p.queue <;> simp [send_message, hflags, hq]

/-- Witness for C9: with an encodable payload and a fresh parent port, the
queue afterwards holds exactly the encoded message. -/
theorem post_message_spec_witness :
    ((send_message create_port { contents := "1", receiver := some 0 }).1).queue
      = create_port.queue ++ [{ contents := "1", receiver := some 0 }] :=
  ((post_message_spec 0 create_port create_port).2.2 "1").2.2 rfl

/-- Claim C10 (confirmed): in every reachable port state, a set waiting
flag implies an empty queue: send_message clears waiting before appending
under the lock, the run loop sets waiting only under the lock with an
empty queue, and every other port operation preserves the implication. -/
theorem waiting_implies_queue_empty (s : PortObs) (h : PortReachable s)
    (hw : s.port.waiting = true) : s.port.queue = [] :=
  (port_inv_of_reachable h).2.2.1 hw

/-- Witness for C10: a concrete reachable state with the waiting flag
set. -/
theorem waiting_implies_queue_empty_witness :
    PortReachable obs_waiting ∧ obs_waiting.port.queue = [] := by
  have h1 : PortReachable obs_waiting :=
    PortReachable.step PortReachable.init (PortStep.set_waiting init_obs rfl rfl)
  exact ⟨h1, waiting_implies_queue_empty obs_waiting h1 rfl⟩

end JsrunWorker
